import Mathlib

/-!
Verification of the oh-my-minds ETL pipeline (src/services.js, src/index.js).

The JavaScript code is shallowly embedded: network requests are modelled by
oracle functions indexed by the attempt number (a request may succeed or fail
differently on each attempt, modelling a changing remote server), thrown
exceptions by `Except`, and JavaScript values that may be `undefined` by
`Option`.  The field `taskQuestionAnswers`, which the code builds with a
JavaScript `&&` chain, is modelled by the sum type `QAField` covering the
three JavaScript values the chain can produce: an array, the number `0`, or
`undefined`.
-/

namespace OhMyMinds

/-- Errors thrown by the service layer: the validation errors thrown by the
`if (!id) throw new Error(...)` guards, and request failures (normalised by
`handleError` into `{message, status, details}`; we keep status and message). -/
inductive ApiError where
  | invalidInput (msg : String)
  | reqFailed (status : Nat) (msg : String)
deriving DecidableEq

/-- A `(title, answer)` pair from a questionnaire submission. -/
structure QA where
  title : String
  answer : String
deriving DecidableEq

/-- One entry of a task-listing page after the fetcher has injected `jobId`
(`taskList.map(task => ({jobId, ...task}))` in services.js). -/
structure RawTask where
  user_task_id : String
  jobId : String
deriving DecidableEq

/-- One entry of a task-listing page as returned by the server (no `jobId`). -/
structure RawEntry where
  user_task_id : String
deriving DecidableEq

/-- An item inside a task's details, as consumed by the row flattener. -/
structure Item where
  job_id : String
  user_task_id : String
  filename : String
  tags : String
deriving DecidableEq

/-- The `tracking_info` sub-object of a details response; `submitted_at` may be
absent. -/
structure TrackingInfo where
  submitted_at : Option String
deriving DecidableEq

/-- The body of a `/tasks/user-task-items` response.  Every field may be absent
(`undefined` in JavaScript): the code accesses them with best-effort optional
chaining and no validation. -/
structure TaskDetails where
  tracking_info : Option TrackingInfo
  assigned_at : Option String
  items : Option (List Item)
deriving DecidableEq

/-- The body of a `/admin/task-questionnaire/user-submit` response: a `data`
field that may be absent. -/
structure QResp where
  data : Option (List QA)
deriving DecidableEq

/-- The JavaScript value of the expression
`tq.data && tq.data.length && tq.data.map(...)`: `undefined` when `data` is
absent, the number `0` when `data` is an empty array (arrays are truthy, so the
chain reaches `data.length`, which is `0` and falsy), and the mapped array when
`data` is non-empty. -/
inductive QAField where
  | undef
  | numZero
  | arr (l : List QA)
deriving DecidableEq

/-- The record built for each task by `getTasksWithDetails`. -/
structure EnrichedTask where
  submittedAt : Option String
  assignedAt : Option String
  items : Option (List Item)
  taskQuestionAnswers : QAField
deriving DecidableEq

/-- Embedding of `getTaskDetails` (services.js:167-185).  `fetch` is the
`/tasks/user-task-items` endpoint for the fixed `userTaskId`, indexed by the
attempt number.  The guard `if (!userTaskId) throw` precedes the try block, so
an empty id throws before any request; on a request failure with `retries > 0`
the function recurses with `retries - 1` (the next attempt), otherwise the last
error is rethrown. -/
def getTaskDetails (fetch : Nat → Except ApiError TaskDetails)
    (userTaskId : String) (retries : Nat) (attempt : Nat) :
    Except ApiError TaskDetails :=
  if userTaskId = "" then
    Except.error (ApiError.invalidInput "userTaskId must be provided")
  else
    match fetch attempt with
    | Except.ok d => Except.ok d
    | Except.error e =>
      match retries with
      | Nat.succ r => getTaskDetails fetch userTaskId r (attempt + 1)
      | 0 => Except.error e

/-- Embedding of `getTaskItems` (services.js:188-206).  `fetch` is its own
`/tasks/task-items` endpoint, `detailsFetch` the `/tasks/user-task-items`
endpoint.  On a first failure with `retries > 0` the code calls
`getTaskDetails` (not itself), which starts fresh requests against the other
endpoint. -/
def getTaskItems (fetch : Nat → Except ApiError TaskDetails)
    (detailsFetch : Nat → Except ApiError TaskDetails)
    (userTaskId : String) (retries : Nat) (attempt : Nat) :
    Except ApiError TaskDetails :=
  if userTaskId = "" then
    Except.error (ApiError.invalidInput "userTaskId must be provided")
  else
    match fetch attempt with
    | Except.ok d => Except.ok d
    | Except.error e =>
      match retries with
      | Nat.succ r => getTaskDetails detailsFetch userTaskId r 0
      | 0 => Except.error e

/-- Embedding of `getTaskQuestionnaireSubmission` (services.js:208-223).
Both identifier guards run before the single request; the `catch` block
rethrows the error unchanged, and there is no retry, so only attempt `0` of
the oracle is ever consulted. -/
def getTaskQuestionnaireSubmission (fetch : Nat → Except ApiError QResp)
    (jobId : String) (userTaskId : String) : Except ApiError QResp :=
  if userTaskId = "" then
    Except.error (ApiError.invalidInput "userTaskId must be provided")
  else if jobId = "" then
    Except.error (ApiError.invalidInput "jobId must be provided")
  else
    match fetch 0 with
    | Except.ok r => Except.ok r
    | Except.error e => Except.error e

/-- The enrichment of a single raw task, the body of the `batch.map` callback
in `getTasksWithDetails` (services.js:134-153): fetch details (with the
default 10 retries), fetch the questionnaire submission, then build the
record.  `submittedAt` models `details.tracking_info?.submitted_at` and
`taskQuestionAnswers` the `&&` chain (see `QAField`). -/
def enrichOne (detailsFetch : String → Nat → Except ApiError TaskDetails)
    (questionnaireFetch : String → String → Nat → Except ApiError QResp)
    (item : RawTask) : Except ApiError EnrichedTask :=
  match getTaskDetails (detailsFetch item.user_task_id) item.user_task_id 10 0 with
  | Except.error e => Except.error e
  | Except.ok details =>
    match getTaskQuestionnaireSubmission
        (questionnaireFetch item.user_task_id item.jobId) item.jobId item.user_task_id with
    | Except.error e => Except.error e
    | Except.ok taskQuestionAnswers =>
      Except.ok
        { submittedAt := details.tracking_info.bind (fun ti => ti.submitted_at)
          assignedAt := details.assigned_at
          items := details.items
          taskQuestionAnswers :=
            match taskQuestionAnswers.data with
            | none => QAField.undef
            | some [] => QAField.numZero
            | some (tq :: tqs) =>
              QAField.arr ((tq :: tqs).map (fun tqItem =>
                { title := tqItem.title, answer := tqItem.answer })) }

/-- `await Promise.all(promises)`: the list of all fulfilled values in
positional order, or the rejection if any promise rejected. -/
def collectResults : List (Except ApiError EnrichedTask) →
    Except ApiError (List EnrichedTask)
  | [] => Except.ok []
  | Except.ok e :: rest =>
    match collectResults rest with
    | Except.ok es => Except.ok (e :: es)
    | Except.error err => Except.error err
  | Except.error err :: _ => Except.error err

/-- Embedding of `getTasksWithDetails` (services.js:126-165): process the task
list in batches of `BATCH_SIZE = 5` (`taskList.slice(i, i + 5)`); each batch
is mapped through the enrichment callback and awaited with `Promise.all`, and
the batch results are appended in order.  A full batch of five is written as
an explicit five-element prefix so the recursion is structural; a final batch
of fewer than five elements is the catch-all case with no recursive call.
The `try/catch` only logs and rethrows, which `Except` propagation models. -/
def getTasksWithDetails (detailsFetch : String → Nat → Except ApiError TaskDetails)
    (questionnaireFetch : String → String → Nat → Except ApiError QResp) :
    List RawTask → Except ApiError (List EnrichedTask)
  | [] => Except.ok []
  | t1 :: t2 :: t3 :: t4 :: t5 :: rest =>
    match collectResults ([t1, t2, t3, t4, t5].map (enrichOne detailsFetch questionnaireFetch)) with
    | Except.error err => Except.error err
    | Except.ok batchResults =>
      match getTasksWithDetails detailsFetch questionnaireFetch rest with
      | Except.error err => Except.error err
      | Except.ok more => Except.ok (batchResults ++ more)
  | l => collectResults (l.map (enrichOne detailsFetch questionnaireFetch))

/-- One page of a task-listing endpoint: the `data` array of raw entries and
the truthiness of `paginate?.pages.next` (`hasNext = false` also covers an
absent `paginate`, thanks to the optional chaining). -/
structure PageResp where
  data : List RawEntry
  hasNext : Bool
deriving DecidableEq

/-- `{jobId, ...task}`: tag a raw page entry with the job id. -/
def tagJob (jobId : String) (e : RawEntry) : RawTask :=
  { user_task_id := e.user_task_id, jobId := jobId }

/-- Embedding of `getJobPendingTasksByPage` (services.js:62-91).  `pages`
models the `/admin/coins/preview` endpoint (page number → response).  The
JavaScript recursion has no bound of its own; `fuel` is the embedding's
termination device, and `none` means the fuel ran out before the server
stopped signalling a next page.  Each page's tagged entries are enriched by
`getTasksWithDetails` and pushed onto the accumulator; if a next-page
indicator is present the function recurses with `currentPage + 1`, otherwise
it returns the accumulated results. -/
def getJobPendingTasksByPage (pages : Nat → PageResp)
    (detailsFetch : String → Nat → Except ApiError TaskDetails)
    (questionnaireFetch : String → String → Nat → Except ApiError QResp)
    (jobId : String) :
    Nat → Nat → List EnrichedTask → Option (Except ApiError (List EnrichedTask))
  | 0, _, _ => none
  | Nat.succ fuel, currentPage, results =>
    let taskResponse := pages currentPage
    let taskList := taskResponse.data.map (tagJob jobId)
    match getTasksWithDetails detailsFetch questionnaireFetch taskList with
    | Except.error e => some (Except.error e)
    | Except.ok taskDetails =>
      if taskResponse.hasNext then
        getJobPendingTasksByPage pages detailsFetch questionnaireFetch jobId
          fuel (currentPage + 1) (results ++ taskDetails)
      else
        some (Except.ok (results ++ taskDetails))

/-- Embedding of `getJobResolvedTasksByPage` (services.js:93-124): identical
paging mechanics against the `/admin/coins/resolved` endpoint. -/
def getJobResolvedTasksByPage (pages : Nat → PageResp)
    (detailsFetch : String → Nat → Except ApiError TaskDetails)
    (questionnaireFetch : String → String → Nat → Except ApiError QResp)
    (jobId : String) :
    Nat → Nat → List EnrichedTask → Option (Except ApiError (List EnrichedTask))
  | 0, _, _ => none
  | Nat.succ fuel, currentPage, results =>
    let taskResponse := pages currentPage
    let taskList := taskResponse.data.map (tagJob jobId)
    match getTasksWithDetails detailsFetch questionnaireFetch taskList with
    | Except.error e => some (Except.error e)
    | Except.ok taskDetails =>
      if taskResponse.hasNext then
        getJobResolvedTasksByPage pages detailsFetch questionnaireFetch jobId
          fuel (currentPage + 1) (results ++ taskDetails)
      else
        some (Except.ok (results ++ taskDetails))

/-- Embedding of `formatDate` (index.js:107-120).  `parse` models
`new Date(s).getTime()` with `none` for `NaN`; `fmt` models
`toLocaleDateString('en-GB', {timeZone: 'Asia/Singapore'})`, a total function
of the parsed timestamp (host-runtime formatting, deterministic for the fixed
locale and timezone).  `!dateString` catches both an absent value and the
empty string. -/
def formatDate (parse : String → Option Int) (fmt : Int → String)
    (dateString : Option String) : String :=
  match dateString with
  | none => ""
  | some s =>
    if s = "" then ""
    else
      match parse s with
      | none => "Invalid Date"
      | some t => fmt t

/-- One output row, with the column names of index.js:201-209 as fields. -/
structure OutputRow where
  jobIdCol : String
  taskIdCol : String
  submitDate : String
  nameCol : String
  classNameCol : String
  fileName : String
  answerCol : String
deriving DecidableEq

/-- The body of the `for (const task of tasks)` loop in `main`
(index.js:187-211) for one task.  The code first calls
`task.taskQuestionAnswers.find(...)`: when `taskQuestionAnswers` is not an
array (`undefined` or `0`, see `QAField`) this throws a `TypeError`, which we
model as `Except.error`.  Likewise `for (const item of task.items)` throws
when `items` is absent.  When both are arrays, one row is emitted per item,
and the Name/Class columns hold the `answer` of the first questionnaire entry
whose `title` equals the configured question title (empty string when there is
no match or the answer is falsy). -/
def flattenTask (parse : String → Option Int) (fmt : Int → String)
    (nameTitle classTitle : String) (task : EnrichedTask) :
    Except String (List OutputRow) :=
  match task.taskQuestionAnswers with
  | QAField.undef =>
    Except.error "TypeError: Cannot read properties of undefined (reading 'find')"
  | QAField.numZero =>
    Except.error "TypeError: task.taskQuestionAnswers.find is not a function"
  | QAField.arr tqs =>
    let nameAnswer := tqs.find? (fun tq => tq.title = nameTitle)
    let name :=
      match nameAnswer with
      | some qa => if qa.answer ≠ "" then qa.answer else ""
      | none => ""
    let classAnswer := tqs.find? (fun tq => tq.title = classTitle)
    let className :=
      match classAnswer with
      | some qa => if qa.answer ≠ "" then qa.answer else ""
      | none => ""
    match task.items with
    | none => Except.error "TypeError: task.items is not iterable"
    | some items =>
      Except.ok (items.map (fun item =>
        { jobIdCol := item.job_id
          taskIdCol := item.user_task_id
          submitDate := formatDate parse fmt task.submittedAt
          nameCol := name
          classNameCol := className
          fileName := item.filename
          answerCol := item.tags }))

/-- The whole row-building loop of `main` (index.js:184-211): rows of all
tasks in order, or the first task's `TypeError` if one throws. -/
def flattenTasks (parse : String → Option Int) (fmt : Int → String)
    (nameTitle classTitle : String) :
    List EnrichedTask → Except String (List OutputRow)
  | [] => Except.ok []
  | t :: ts =>
    match flattenTask parse fmt nameTitle classTitle t with
    | Except.error e => Except.error e
    | Except.ok rows =>
      match flattenTasks parse fmt nameTitle classTitle ts with
      | Except.error e => Except.error e
      | Except.ok more => Except.ok (rows ++ more)

/-- The `items.length` of an enriched task (`0` when `items` is absent); the
measure in the spec's row-count invariant. -/
def itemsLen (t : EnrichedTask) : Nat :=
  match t.items with
  | some l => l.length
  | none => 0

/-- The sum of the `data` entry counts of the pages `start, start+1, ...,
start+n`: the total of "all pages visited" in the spec's pagination invariant. -/
def pagesTotal (pages : Nat → PageResp) (start : Nat) : Nat → Nat
  | 0 => (pages start).data.length
  | Nat.succ n => (pages start).data.length + pagesTotal pages (start + 1) n

/-! Concrete oracles and inputs, used to evaluate the model on closed terms. -/

/-- A concrete details response: two items belonging to one task. -/
def detailsW : TaskDetails :=
  { tracking_info := some { submitted_at := some "2024-09-19T10:02:09.615Z" }
    assigned_at := some "2024-09-19T10:01:41.985Z"
    items := some [{ job_id := "j1", user_task_id := "u1", filename := "f1.jpg", tags := "cat" },
                   { job_id := "j1", user_task_id := "u1", filename := "f2.jpg", tags := "dog" }] }

/-- A details endpoint that succeeds on every attempt. -/
def dOrW : String → Nat → Except ApiError TaskDetails := fun _ _ => Except.ok detailsW

/-- A questionnaire endpoint returning a Name answer and a Class answer. -/
def qOrW : String → String → Nat → Except ApiError QResp := fun _ _ _ =>
  Except.ok { data := some [{ title := "Name", answer := "Alice" },
                            { title := "Class", answer := "1A" }] }

/-- A questionnaire endpoint whose submissions carry an empty `data` array. -/
def qEmptyW : String → String → Nat → Except ApiError QResp := fun _ _ _ =>
  Except.ok { data := some [] }

/-- A single raw task. -/
def ctaskW : RawTask := { user_task_id := "u1", jobId := "j1" }

/-- Seven raw tasks: one full batch of five plus a final batch of two. -/
def tlW : List RawTask :=
  [{ user_task_id := "u1", jobId := "j1" }, { user_task_id := "u2", jobId := "j1" },
   { user_task_id := "u3", jobId := "j1" }, { user_task_id := "u4", jobId := "j1" },
   { user_task_id := "u5", jobId := "j1" }, { user_task_id := "u6", jobId := "j1" },
   { user_task_id := "u7", jobId := "j1" }]

/-- The enrichment of `tlW` under the always-succeeding oracles. -/
def resW : List EnrichedTask :=
  match getTasksWithDetails dOrW qOrW tlW with
  | Except.ok r => r
  | Except.error _ => []

/-- The enrichment of `ctaskW` when the questionnaire `data` is empty. -/
def etEmptyW : EnrichedTask :=
  match enrichOne dOrW qEmptyW ctaskW with
  | Except.ok e => e
  | Except.error _ =>
    { submittedAt := none, assignedAt := none, items := none,
      taskQuestionAnswers := QAField.undef }

/-- The enrichment of `ctaskW` under the always-succeeding oracles. -/
def etW : EnrichedTask :=
  match enrichOne dOrW qOrW ctaskW with
  | Except.ok e => e
  | Except.error _ =>
    { submittedAt := none, assignedAt := none, items := none,
      taskQuestionAnswers := QAField.undef }

/-- A concrete model of `new Date(s).getTime()` (`none` for an unparsable
string) knowing one valid timestamp. -/
def parseW : String → Option Int := fun s =>
  if s = "2024-09-19T10:02:09.615Z" then some 1726740129615 else none

/-- A concrete model of the fixed-locale, fixed-timezone formatter
(`en-GB`, `Asia/Singapore`): the epoch value above renders as 19/09/2024. -/
def fmtW : Int → String := fun t =>
  if t = 1726740129615 then "19/09/2024" else "01/01/1970"

/-- An enriched task whose `taskQuestionAnswers` is the JavaScript value
`undefined` (questionnaire `data` absent) but which has items. -/
def undefTaskW : EnrichedTask :=
  { submittedAt := some "2024-09-19T10:02:09.615Z", assignedAt := none,
    items := some [{ job_id := "j1", user_task_id := "u1", filename := "f1.jpg", tags := "cat" }],
    taskQuestionAnswers := QAField.undef }

/-- An enriched task whose `taskQuestionAnswers` is the JavaScript value `0`
(questionnaire `data` empty) but which has items. -/
def numZeroTaskW : EnrichedTask :=
  { submittedAt := some "2024-09-19T10:02:09.615Z", assignedAt := none,
    items := some [{ job_id := "j1", user_task_id := "u1", filename := "f1.jpg", tags := "cat" }],
    taskQuestionAnswers := QAField.numZero }

/-- An enriched task with array-typed answers and two items. -/
def arrTaskW : EnrichedTask :=
  { submittedAt := some "2024-09-19T10:02:09.615Z", assignedAt := none,
    items := some [{ job_id := "j1", user_task_id := "u1", filename := "f1.jpg", tags := "cat" },
                   { job_id := "j1", user_task_id := "u1", filename := "f2.jpg", tags := "dog" }],
    taskQuestionAnswers := QAField.arr [{ title := "Name", answer := "Alice" },
                                        { title := "Class", answer := "1A" }] }

/-- The rows flattened from `arrTaskW`. -/
def rowsW : List OutputRow :=
  match flattenTask parseW fmtW "Name" "Class" arrTaskW with
  | Except.ok r => r
  | Except.error _ => []

/-- A details endpoint failing on the first 10 attempts and succeeding on the
11th. -/
def c3FetchW : Nat → Except ApiError TaskDetails := fun n =>
  if n < 10 then Except.error (ApiError.reqFailed 504 "Gateway Timeout") else Except.ok detailsW

/-- A details endpoint that fails on every attempt. -/
def cAllFailW : Nat → Except ApiError TaskDetails := fun _ =>
  Except.error (ApiError.reqFailed 504 "Gateway Timeout")

/-- A details endpoint failing on the first 9 attempts and succeeding on the
10th. -/
def c3Fetch9W : Nat → Except ApiError TaskDetails := fun n =>
  if n < 9 then Except.error (ApiError.reqFailed 504 "Gateway Timeout") else Except.ok detailsW

/-- A listing endpoint whose every page is empty with no next indicator. -/
def pagesEmptyW : Nat → PageResp := fun _ => { data := [], hasNext := false }

/-- A questionnaire endpoint that fails on every attempt. -/
def qErrW : Nat → Except ApiError QResp := fun _ =>
  Except.error (ApiError.reqFailed 500 "Internal Server Error")

/-- A questionnaire endpoint that fails on attempt 0 but would succeed on any
later attempt (distinguishing a no-retry caller from a retrying one). -/
def qErr2W : Nat → Except ApiError QResp := fun n =>
  if n = 0 then Except.error (ApiError.reqFailed 500 "Internal Server Error")
  else Except.ok { data := none }

/-- A details endpoint that succeeds on every attempt (unary form). -/
def detOkW : Nat → Except ApiError TaskDetails := fun _ => Except.ok detailsW

/-! Helper lemmas about `collectResults` and the batching loop. -/

theorem collectResults_ok_eq :
    ∀ (rs : List (Except ApiError EnrichedTask)) (es : List EnrichedTask),
      collectResults rs = Except.ok es → rs = es.map Except.ok := by
  intro rs
  induction rs with
  | nil =>
    intro es h
    simp only [collectResults] at h
    injection h with h2
    simp [← h2]
  | cons r rest ih =>
    intro es h
    cases r with
    | error e => simp [collectResults] at h
    | ok v =>
      simp only [collectResults] at h
      cases hrest : collectResults rest with
      | error e => rw [hrest] at h; cases h
      | ok es2 =>
        rw [hrest] at h
        injection h with h2
        simp [← h2, ih es2 hrest]

theorem collectResults_append (as bs : List (Except ApiError EnrichedTask)) :
    collectResults (as ++ bs) =
      match collectResults as, collectResults bs with
      | Except.ok xs, Except.ok ys => Except.ok (xs ++ ys)
      | Except.error e, _ => Except.error e
      | Except.ok _, Except.error e => Except.error e := by
  induction as with
  | nil =>
    simp only [List.nil_append, collectResults]
    cases collectResults bs with
    | ok ys => rfl
    | error e => rfl
  | cons a as ih =>
    cases a with
    | error e => rfl
    | ok v =>
      simp only [List.cons_append, collectResults, List.append_eq]
      rw [ih]
      cases collectResults as with
      | error e => rfl
      | ok xs =>
        cases collectResults bs with
        | error e => rfl
        | ok ys => rfl

theorem getTasksWithDetails_eq_collect
    (d : String → Nat → Except ApiError TaskDetails)
    (q : String → String → Nat → Except ApiError QResp) :
    ∀ (n : Nat) (l : List RawTask), l.length ≤ n →
      getTasksWithDetails d q l = collectResults (l.map (enrichOne d q)) := by
  intro n
  induction n with
  | zero =>
    intro l hl
    have h0 : l = [] := List.length_eq_zero.mp (Nat.le_zero.mp hl)
    subst h0
    rfl
  | succ n ih =>
    intro l hl
    match l with
    | [] => rfl
    | [t1] => rfl
    | [t1, t2] => rfl
    | [t1, t2, t3] => rfl
    | [t1, t2, t3, t4] => rfl
    | t1 :: t2 :: t3 :: t4 :: t5 :: rest =>
      have hr : rest.length ≤ n := by
        simp only [List.length_cons] at hl
        omega
      have hmap : (t1 :: t2 :: t3 :: t4 :: t5 :: rest).map (enrichOne d q) =
          ([t1, t2, t3, t4, t5].map (enrichOne d q)) ++ rest.map (enrichOne d q) := by
        simp
      rw [getTasksWithDetails, ih rest hr, hmap, collectResults_append]
      cases collectResults ([t1, t2, t3, t4, t5].map (enrichOne d q)) with
      | error e => rfl
      | ok batchResults =>
        cases collectResults (rest.map (enrichOne d q)) with
        | error e => rfl
        | ok more => rfl

theorem map_enrich_pointwise (f : RawTask → Except ApiError EnrichedTask) :
    ∀ (tl : List RawTask) (res : List EnrichedTask), tl.map f = res.map Except.ok →
      ∀ i (hi : i < tl.length) (hi2 : i < res.length), f tl[i] = Except.ok res[i] := by
  intro tl
  induction tl with
  | nil =>
    intro res h i hi hi2
    exact absurd hi (by simp)
  | cons t ts ih =>
    intro res h i hi hi2
    cases res with
    | nil => exact absurd hi2 (by simp)
    | cons r rs =>
      simp only [List.map_cons] at h
      injection h with h1 h2
      cases i with
      | zero => simpa using h1
      | succ j =>
        have hj : j < ts.length := by simp only [List.length_cons] at hi; omega
        have hj2 : j < rs.length := by simp only [List.length_cons] at hi2; omega
        simpa using ih rs h2 j hj hj2

/-- C5: the enrichment step returns one `EnrichedTask` per input `RawTask`,
with positional correspondence, regardless of the batch partitioning: whenever
`getTasksWithDetails` succeeds, its output has the length of its input and the
i-th output is the enrichment of the i-th input. -/
theorem getTasksWithDetails_length_order
    (d : String → Nat → Except ApiError TaskDetails)
    (q : String → String → Nat → Except ApiError QResp)
    (tl : List RawTask) (res : List EnrichedTask)
    (h : getTasksWithDetails d q tl = Except.ok res) :
    res.length = tl.length ∧
      ∀ i (hi : i < tl.length) (hi2 : i < res.length),
        enrichOne d q tl[i] = Except.ok res[i] := by
  rw [getTasksWithDetails_eq_collect d q tl.length tl (Nat.le_refl _)] at h
  have h2 := collectResults_ok_eq _ _ h
  have hlen : tl.length = res.length := by
    have h3 := congrArg List.length h2
    simpa using h3
  exact ⟨hlen.symm, map_enrich_pointwise (enrichOne d q) tl res h2⟩

/-- C5 witness: seven concrete raw tasks (batches of 5 and 2) under
always-succeeding oracles. -/
theorem getTasksWithDetails_length_order_witness :
    resW.length = tlW.length ∧
      ∀ i (hi : i < tlW.length) (hi2 : i < resW.length),
        enrichOne dOrW qOrW tlW[i] = Except.ok resW[i] :=
  getTasksWithDetails_length_order dOrW qOrW tlW resW rfl

/-- C1 counterexample: with a questionnaire lookup whose `data` is an empty
array, the enrichment step succeeds but produces a task whose
`taskQuestionAnswers` is not an array (it is the JavaScript number `0`,
because `[] && [].length && ...` evaluates to `0`). -/
theorem enrichment_nonarray_counterexample :
    ∃ res, getTasksWithDetails dOrW qEmptyW [ctaskW] = Except.ok res ∧
      ∃ et, et ∈ res ∧ ∀ l, et.taskQuestionAnswers ≠ QAField.arr l := by
  have hval : etEmptyW.taskQuestionAnswers = QAField.numZero := rfl
  refine ⟨[etEmptyW], rfl, etEmptyW, by simp, fun l hl => ?_⟩
  rw [hval] at hl
  cases hl

/-- C1 (amended): for every successful enrichment, `items` is the details
response's `items` field passed through unchanged (so it is absent when the
response omits it), and `taskQuestionAnswers` is an array exactly when the
questionnaire `data` is present and non-empty; when `data` is an empty array
it is the number `0`, and when `data` is absent it is `undefined` — both
falsy, neither an array. -/
theorem enrichment_field_shapes
    (d : String → Nat → Except ApiError TaskDetails)
    (q : String → String → Nat → Except ApiError QResp)
    (t : RawTask) (et : EnrichedTask)
    (h : enrichOne d q t = Except.ok et) :
    (∃ det, getTaskDetails (d t.user_task_id) t.user_task_id 10 0 = Except.ok det ∧
        et.items = det.items) ∧
    ((∃ l, et.taskQuestionAnswers = QAField.arr l) ∨
        et.taskQuestionAnswers = QAField.numZero ∨
        et.taskQuestionAnswers = QAField.undef) ∧
    (∀ tq, getTaskQuestionnaireSubmission (q t.user_task_id t.jobId) t.jobId t.user_task_id =
        Except.ok tq →
      ((et.taskQuestionAnswers = QAField.undef ↔ tq.data = none) ∧
       (et.taskQuestionAnswers = QAField.numZero ↔ tq.data = some []) ∧
       ∀ x xs, tq.data = some (x :: xs) →
         et.taskQuestionAnswers =
           QAField.arr ((x :: xs).map (fun a => { title := a.title, answer := a.answer })))) := by
  unfold enrichOne at h
  cases hdet : getTaskDetails (d t.user_task_id) t.user_task_id 10 0 with
  | error e => rw [hdet] at h; cases h
  | ok det =>
    rw [hdet] at h
    cases htq : getTaskQuestionnaireSubmission (q t.user_task_id t.jobId) t.jobId t.user_task_id with
    | error e => rw [htq] at h; cases h
    | ok tq0 =>
      rw [htq] at h
      injection h with h2
      subst h2
      refine ⟨⟨det, rfl, rfl⟩, ?_, ?_⟩
      · cases hdata : tq0.data with
        | none => right; right; simp [hdata]
        | some l =>
          cases l with
          | nil => right; left; simp [hdata]
          | cons x xs =>
            exact Or.inl ⟨(x :: xs).map (fun a => { title := a.title, answer := a.answer }),
              by simp [hdata]⟩
      · intro tq htq2
        injection htq2 with h3
        subst h3
        cases hdata : tq0.data with
        | none =>
          refine ⟨by simp [hdata], by simp [hdata], ?_⟩
          intro x xs hxs
          cases hxs
        | some l =>
          cases l with
          | nil =>
            refine ⟨by simp [hdata], by simp [hdata], ?_⟩
            intro x xs hxs
            simp at hxs
          | cons y ys =>
            refine ⟨by simp [hdata], by simp [hdata], ?_⟩
            intro x xs hxs
            injection hxs with h4
            rw [← h4]

/-- C1 (amended) witness: the single concrete task under the empty-data
questionnaire oracle. -/
theorem enrichment_field_shapes_witness :
    (∃ det, getTaskDetails (dOrW ctaskW.user_task_id) ctaskW.user_task_id 10 0 = Except.ok det ∧
        etEmptyW.items = det.items) ∧
    ((∃ l, etEmptyW.taskQuestionAnswers = QAField.arr l) ∨
        etEmptyW.taskQuestionAnswers = QAField.numZero ∨
        etEmptyW.taskQuestionAnswers = QAField.undef) ∧
    (∀ tq, getTaskQuestionnaireSubmission (qEmptyW ctaskW.user_task_id ctaskW.jobId)
        ctaskW.jobId ctaskW.user_task_id = Except.ok tq →
      ((etEmptyW.taskQuestionAnswers = QAField.undef ↔ tq.data = none) ∧
       (etEmptyW.taskQuestionAnswers = QAField.numZero ↔ tq.data = some []) ∧
       ∀ x xs, tq.data = some (x :: xs) →
         etEmptyW.taskQuestionAnswers =
           QAField.arr ((x :: xs).map (fun a => { title := a.title, answer := a.answer })))) :=
  enrichment_field_shapes dOrW qEmptyW ctaskW etEmptyW rfl

/-! Retry behaviour of the detail lookup. -/

theorem getTaskDetails_all_fail (fetch : Nat → Except ApiError TaskDetails)
    (userTaskId : String) (hid : userTaskId ≠ "") :
    ∀ (retries attempt : Nat),
      (∀ k, k ≤ retries → ∃ e, fetch (attempt + k) = Except.error e) →
      ∀ e, fetch (attempt + retries) = Except.error e →
      getTaskDetails fetch userTaskId retries attempt = Except.error e := by
  intro retries
  induction retries with
  | zero =>
    intro attempt hall e he
    simp only [Nat.add_zero] at he
    rw [getTaskDetails, if_neg hid, he]
  | succ r ih =>
    intro attempt hall e he
    obtain ⟨e0, he0⟩ := hall 0 (Nat.zero_le _)
    simp only [Nat.add_zero] at he0
    rw [getTaskDetails, if_neg hid, he0]
    show getTaskDetails fetch userTaskId r (attempt + 1) = Except.error e
    apply ih (attempt + 1)
    · intro k hk
      obtain ⟨e1, he1⟩ := hall (k + 1) (by omega)
      exact ⟨e1, by rw [show attempt + 1 + k = attempt + (k + 1) from by omega]; exact he1⟩
    · rw [show attempt + 1 + r = attempt + (r + 1) from by omega]
      exact he

theorem getTaskDetails_first_success (fetch : Nat → Except ApiError TaskDetails)
    (userTaskId : String) (hid : userTaskId ≠ "") :
    ∀ (m retries attempt : Nat), m ≤ retries →
      (∀ k, k < m → ∃ e, fetch (attempt + k) = Except.error e) →
      ∀ d, fetch (attempt + m) = Except.ok d →
      getTaskDetails fetch userTaskId retries attempt = Except.ok d := by
  intro m
  induction m with
  | zero =>
    intro retries attempt _ _ d hd
    simp only [Nat.add_zero] at hd
    rw [getTaskDetails, if_neg hid, hd]
  | succ j ih =>
    intro retries attempt hm hfail d hd
    obtain ⟨e0, he0⟩ := hfail 0 (by omega)
    simp only [Nat.add_zero] at he0
    obtain ⟨r, rfl⟩ : ∃ r, retries = r + 1 := ⟨retries - 1, by omega⟩
    rw [getTaskDetails, if_neg hid, he0]
    show getTaskDetails fetch userTaskId r (attempt + 1) = Except.ok d
    apply ih r (attempt + 1) (by omega)
    · intro k hk
      obtain ⟨e1, he1⟩ := hfail (k + 1) (by omega)
      exact ⟨e1, by rw [show attempt + 1 + k = attempt + (k + 1) from by omega]; exact he1⟩
    · rw [show attempt + 1 + j = attempt + (j + 1) from by omega]
      exact hd

/-- C3 counterexample: a details endpoint that fails on 10 consecutive
attempts and would succeed on the 11th.  Contrary to the claim, after 10
consecutive failures the final error is NOT propagated: the code makes a
further (11th) attempt, and the call succeeds. -/
theorem getTaskDetails_eleventh_attempt :
    (List.range 10).map c3FetchW =
      List.replicate 10 (Except.error (ApiError.reqFailed 504 "Gateway Timeout")) ∧
    getTaskDetails c3FetchW "u1" 10 0 = Except.ok detailsW :=
  ⟨rfl, rfl⟩

/-- C3 (amended): the detail lookup makes up to 11 attempts in total (one
initial request plus up to 10 retries).  If 11 consecutive attempts fail, the
11th attempt's error propagates unchanged; if the first 9 attempts fail and
the 10th succeeds, the successful result is returned. -/
theorem getTaskDetails_retry_bound (fetch : Nat → Except ApiError TaskDetails)
    (userTaskId : String) (hid : userTaskId ≠ "") :
    ((∀ k, k ≤ 10 → ∃ e, fetch k = Except.error e) → ∀ e, fetch 10 = Except.error e →
        getTaskDetails fetch userTaskId 10 0 = Except.error e) ∧
    ((∀ k, k < 9 → ∃ e, fetch k = Except.error e) → ∀ d, fetch 9 = Except.ok d →
        getTaskDetails fetch userTaskId 10 0 = Except.ok d) := by
  constructor
  · intro hall e he
    exact getTaskDetails_all_fail fetch userTaskId hid 10 0 (by simpa using hall) e
      (by simpa using he)
  · intro hfail d hd
    exact getTaskDetails_first_success fetch userTaskId hid 9 10 0 (by omega)
      (by simpa using hfail) d (by simpa using hd)

/-- C3 (amended) witness: an always-failing endpoint propagates the error
after the 11 attempts, and an endpoint failing 9 times then succeeding
returns the success. -/
theorem getTaskDetails_retry_bound_witness :
    getTaskDetails cAllFailW "u1" 10 0 =
      Except.error (ApiError.reqFailed 504 "Gateway Timeout") ∧
    getTaskDetails c3Fetch9W "u1" 10 0 = Except.ok detailsW :=
  ⟨(getTaskDetails_retry_bound cAllFailW "u1" (by decide)).1
      (fun k _ => ⟨ApiError.reqFailed 504 "Gateway Timeout", rfl⟩)
      (ApiError.reqFailed 504 "Gateway Timeout") rfl,
   (getTaskDetails_retry_bound c3Fetch9W "u1" (by decide)).2
      (fun k hk => ⟨ApiError.reqFailed 504 "Gateway Timeout", by
        simp only [c3Fetch9W, if_pos hk]⟩)
      detailsW rfl⟩

/-! Pagination. -/

theorem pending_loop_spec (pages : Nat → PageResp)
    (d : String → Nat → Except ApiError TaskDetails)
    (q : String → String → Nat → Except ApiError QResp) (jobId : String) :
    ∀ (n start : Nat) (acc : List EnrichedTask) (fuel : Nat), n < fuel →
      (∀ i, i < n → (pages (start + i)).hasNext = true) →
      (pages (start + n)).hasNext = false →
      (∀ i, i ≤ n →
        ∃ ds, getTasksWithDetails d q ((pages (start + i)).data.map (tagJob jobId)) =
          Except.ok ds) →
      ∃ res, getJobPendingTasksByPage pages d q jobId fuel start acc =
          some (Except.ok res) ∧
        res.length = acc.length + pagesTotal pages start n := by
  intro n
  induction n with
  | zero =>
    intro start acc fuel hfuel _ hlast hok
    obtain ⟨f, rfl⟩ : ∃ f, fuel = f + 1 := ⟨fuel - 1, by omega⟩
    obtain ⟨ds, hds⟩ := hok 0 (Nat.le_refl 0)
    simp only [Nat.add_zero] at hds hlast
    have hdslen := (getTasksWithDetails_length_order d q _ _ hds).1
    refine ⟨acc ++ ds, ?_, ?_⟩
    · simp only [getJobPendingTasksByPage, hds, hlast]
      rfl
    · simp only [List.length_append, pagesTotal]
      rw [hdslen]
      simp
  | succ m ih =>
    intro start acc fuel hfuel hnext hlast hok
    obtain ⟨f, rfl⟩ : ∃ f, fuel = f + 1 := ⟨fuel - 1, by omega⟩
    obtain ⟨ds, hds⟩ := hok 0 (Nat.zero_le _)
    simp only [Nat.add_zero] at hds
    have h0 : (pages start).hasNext = true := by
      have h1 := hnext 0 (by omega)
      simpa using h1
    have hdslen := (getTasksWithDetails_length_order d q _ _ hds).1
    obtain ⟨res, hres, hlen⟩ := ih (start + 1) (acc ++ ds) f (by omega)
      (fun i hi => by
        have h2 := hnext (i + 1) (by omega)
        rwa [show start + (i + 1) = start + 1 + i from by omega] at h2)
      (by
        have h2 := hlast
        rwa [show start + (m + 1) = start + 1 + m from by omega] at h2)
      (fun i hi => by
        have h2 := hok (i + 1) (by omega)
        rwa [show start + (i + 1) = start + 1 + i from by omega] at h2)
    refine ⟨res, ?_, ?_⟩
    · simp only [getJobPendingTasksByPage, hds, h0, if_true]
      exact hres
    · rw [hlen]
      simp only [List.length_append, pagesTotal]
      rw [hdslen]
      simp only [List.length_map]
      omega

theorem getJobResolvedTasksByPage_eq_pending (pages : Nat → PageResp)
    (d : String → Nat → Except ApiError TaskDetails)
    (q : String → String → Nat → Except ApiError QResp) (jobId : String) :
    ∀ (fuel currentPage : Nat) (results : List EnrichedTask),
      getJobResolvedTasksByPage pages d q jobId fuel currentPage results =
        getJobPendingTasksByPage pages d q jobId fuel currentPage results := by
  intro fuel
  induction fuel with
  | zero => intro c r; rfl
  | succ f ih =>
    intro c r
    simp only [getJobResolvedTasksByPage, getJobPendingTasksByPage]
    cases getTasksWithDetails d q ((pages c).data.map (tagJob jobId)) with
    | error e => rfl
    | ok ds =>
      cases (pages c).hasNext with
      | false => rfl
      | true => simp only [ih]

/-- C4: for both paginated fetch variants, when every page's enrichment
succeeds, the fetch succeeds and returns exactly as many entries as the sum of
the entry counts of the pages visited; the pages visited are `start` up to
`start + n`, where `start + n` is the first page whose pagination metadata
carries no next indicator (the theorem holds for every fuel bound larger than
`n`, so exactly those pages are consulted). -/
theorem paginated_fetch_total (pages : Nat → PageResp)
    (d : String → Nat → Except ApiError TaskDetails)
    (q : String → String → Nat → Except ApiError QResp) (jobId : String)
    (n fuel start : Nat) (hfuel : n < fuel)
    (hnext : ∀ i, i < n → (pages (start + i)).hasNext = true)
    (hlast : (pages (start + n)).hasNext = false)
    (hok : ∀ i, i ≤ n →
      ∃ ds, getTasksWithDetails d q ((pages (start + i)).data.map (tagJob jobId)) =
        Except.ok ds) :
    (∃ res, getJobPendingTasksByPage pages d q jobId fuel start [] =
        some (Except.ok res) ∧ res.length = pagesTotal pages start n) ∧
    (∃ res, getJobResolvedTasksByPage pages d q jobId fuel start [] =
        some (Except.ok res) ∧ res.length = pagesTotal pages start n) := by
  obtain ⟨res, hres, hlen⟩ :=
    pending_loop_spec pages d q jobId n start [] fuel hfuel hnext hlast hok
  refine ⟨⟨res, hres, by simpa using hlen⟩, ⟨res, ?_, by simpa using hlen⟩⟩
  rw [getJobResolvedTasksByPage_eq_pending]
  exact hres

/-- C4 witness: an empty first page with no next indicator yields an empty
result sequence without error, for both variants (page numbering starts at 1
as in `main`). -/
theorem paginated_fetch_total_witness :
    (∃ res, getJobPendingTasksByPage pagesEmptyW dOrW qOrW "j1" 1 1 [] =
        some (Except.ok res) ∧ res.length = pagesTotal pagesEmptyW 1 0) ∧
    (∃ res, getJobResolvedTasksByPage pagesEmptyW dOrW qOrW "j1" 1 1 [] =
        some (Except.ok res) ∧ res.length = pagesTotal pagesEmptyW 1 0) :=
  paginated_fetch_total pagesEmptyW dOrW qOrW "j1" 0 1 1 (by omega)
    (fun i hi => absurd hi (Nat.not_lt_zero i)) rfl (fun i _ => ⟨[], rfl⟩)

/-! The row flattener. -/

theorem flattenTask_ok (parse : String → Option Int) (fmt : Int → String)
    (nameTitle classTitle : String) (t : EnrichedTask) (l : List QA) (its : List Item)
    (hl : t.taskQuestionAnswers = QAField.arr l) (hits : t.items = some its) :
    ∃ rs, flattenTask parse fmt nameTitle classTitle t = Except.ok rs ∧
      rs.length = its.length := by
  refine ⟨its.map (fun item =>
    { jobIdCol := item.job_id
      taskIdCol := item.user_task_id
      submitDate := formatDate parse fmt t.submittedAt
      nameCol :=
        match l.find? (fun tq => tq.title = nameTitle) with
        | some qa => if qa.answer ≠ "" then qa.answer else ""
        | none => ""
      classNameCol :=
        match l.find? (fun tq => tq.title = classTitle) with
        | some qa => if qa.answer ≠ "" then qa.answer else ""
        | none => ""
      fileName := item.filename
      answerCol := item.tags }), ?_, by simp⟩
  simp only [flattenTask, hl, hits]

/-- C6: for every sequence of enriched tasks (with the data model's
array-typed `items` and `taskQuestionAnswers`), the flattening step succeeds
and the total number of output rows equals the sum over all tasks of
`items.length`; a task with zero items contributes zero rows. -/
theorem flatten_row_count (parse : String → Option Int) (fmt : Int → String)
    (nameTitle classTitle : String) (tasks : List EnrichedTask)
    (h : ∀ t, t ∈ tasks →
      (∃ l, t.taskQuestionAnswers = QAField.arr l) ∧ ∃ its, t.items = some its) :
    ∃ rows, flattenTasks parse fmt nameTitle classTitle tasks = Except.ok rows ∧
      rows.length = (tasks.map itemsLen).sum := by
  induction tasks with
  | nil => exact ⟨[], rfl, rfl⟩
  | cons t ts ih =>
    obtain ⟨⟨l, hl⟩, its, hits⟩ := h t (List.mem_cons_self t ts)
    obtain ⟨rows, hrows, hlen⟩ := ih (fun x hx => h x (List.mem_cons_of_mem t hx))
    obtain ⟨rs, hrs, hrslen⟩ := flattenTask_ok parse fmt nameTitle classTitle t l its hl hits
    refine ⟨rs ++ rows, ?_, ?_⟩
    · simp only [flattenTasks, hrs, hrows]
    · simp only [List.length_append, List.map_cons, List.sum_cons, hrslen, hlen, itemsLen, hits]

/-- C6 witness: one concrete enriched task with two items yields two rows. -/
theorem flatten_row_count_witness :
    ∃ rows, flattenTasks parseW fmtW "Name" "Class" [arrTaskW] = Except.ok rows ∧
      rows.length = ([arrTaskW].map itemsLen).sum :=
  flatten_row_count parseW fmtW "Name" "Class" [arrTaskW]
    (fun t ht => by
      rw [List.mem_singleton] at ht
      subst ht
      exact ⟨⟨_, rfl⟩, _, rfl⟩)

/-- C7: Name/Class extraction selects the first questionnaire answer whose
title exactly equals the configured question title: when the first match
exists and its answer is truthy, every emitted row carries that answer in the
Name (resp. Class) column; when no title matches, every emitted row carries
the empty string. -/
theorem flatten_name_class_extraction (parse : String → Option Int)
    (fmt : Int → String) (nameTitle classTitle : String) (t : EnrichedTask)
    (l : List QA) (its : List Item) (rows : List OutputRow)
    (hl : t.taskQuestionAnswers = QAField.arr l) (hits : t.items = some its)
    (h : flattenTask parse fmt nameTitle classTitle t = Except.ok rows) :
    (∀ qa, l.find? (fun tq => tq.title = nameTitle) = some qa → qa.answer ≠ "" →
        ∀ row, row ∈ rows → row.nameCol = qa.answer) ∧
    (l.find? (fun tq => tq.title = nameTitle) = none →
        ∀ row, row ∈ rows → row.nameCol = "") ∧
    (∀ qa, l.find? (fun tq => tq.title = classTitle) = some qa → qa.answer ≠ "" →
        ∀ row, row ∈ rows → row.classNameCol = qa.answer) ∧
    (l.find? (fun tq => tq.title = classTitle) = none →
        ∀ row, row ∈ rows → row.classNameCol = "") := by
  simp only [flattenTask, hl, hits] at h
  injection h with h2
  subst h2
  refine ⟨?_, ?_, ?_, ?_⟩
  · intro qa hfind hne row hrow
    simp only [List.mem_map] at hrow
    obtain ⟨item, hmem, hrow2⟩ := hrow
    rw [← hrow2]
    simp only [hfind]
    rw [if_pos hne]
  · intro hfind row hrow
    simp only [List.mem_map] at hrow
    obtain ⟨item, hmem, hrow2⟩ := hrow
    rw [← hrow2]
    simp only [hfind]
  · intro qa hfind hne row hrow
    simp only [List.mem_map] at hrow
    obtain ⟨item, hmem, hrow2⟩ := hrow
    rw [← hrow2]
    simp only [hfind]
    rw [if_pos hne]
  · intro hfind row hrow
    simp only [List.mem_map] at hrow
    obtain ⟨item, hmem, hrow2⟩ := hrow
    rw [← hrow2]
    simp only [hfind]

/-- C7 witness: the concrete task whose answers hold `{Name, Alice}`; every
row gets Name "Alice", and a class title with a first match "1A" gets "1A". -/
theorem flatten_name_class_extraction_witness :
    (∀ qa, [({ title := "Name", answer := "Alice" } : QA),
            { title := "Class", answer := "1A" }].find? (fun tq => tq.title = "Name") =
          some qa → qa.answer ≠ "" →
        ∀ row, row ∈ rowsW → row.nameCol = qa.answer) ∧
    ([({ title := "Name", answer := "Alice" } : QA),
      { title := "Class", answer := "1A" }].find? (fun tq => tq.title = "Name") = none →
        ∀ row, row ∈ rowsW → row.nameCol = "") ∧
    (∀ qa, [({ title := "Name", answer := "Alice" } : QA),
            { title := "Class", answer := "1A" }].find? (fun tq => tq.title = "Class") =
          some qa → qa.answer ≠ "" →
        ∀ row, row ∈ rowsW → row.classNameCol = qa.answer) ∧
    ([({ title := "Name", answer := "Alice" } : QA),
      { title := "Class", answer := "1A" }].find? (fun tq => tq.title = "Class") = none →
        ∀ row, row ∈ rowsW → row.classNameCol = "") :=
  flatten_name_class_extraction parseW fmtW "Name" "Class" arrTaskW
    [{ title := "Name", answer := "Alice" }, { title := "Class", answer := "1A" }]
    (match arrTaskW.items with | some its => its | none => []) rowsW rfl rfl rfl

/-- C2: the row flattener does NOT treat a falsy `taskQuestionAnswers`
uniformly with an empty array: calling `.find` on the JavaScript values
`undefined` or `0` throws a TypeError, so the flattening step aborts instead
of emitting rows with empty Name/Class.  This contradicts the spec's
contract that callers treat falsy and empty-array uniformly as "no
answers" — the code evaluated at the failing input. -/
theorem flatten_falsy_answers_throws :
    flattenTasks parseW fmtW "Name" "Class" [undefTaskW] =
      Except.error "TypeError: Cannot read properties of undefined (reading 'find')" ∧
    flattenTasks parseW fmtW "Name" "Class" [numZeroTaskW] =
      Except.error "TypeError: task.taskQuestionAnswers.find is not a function" :=
  ⟨rfl, rfl⟩

/-! Date formatting. -/

/-- C8: `formatDate` of an absent value is the empty string; of a non-empty
string the host date parser cannot parse, the literal string "Invalid Date";
and of a parsable timestamp, the result of the fixed-timezone, fixed-locale
formatter applied to the parsed instant — a total function of the input, so
the same input always yields the same output and no exception escapes (the
body is wrapped in try/catch and the branches above are exhaustive). -/
theorem formatDate_spec (parse : String → Option Int) (fmt : Int → String) :
    formatDate parse fmt none = "" ∧
    (∀ s, s ≠ "" → parse s = none → formatDate parse fmt (some s) = "Invalid Date") ∧
    (∀ s t, s ≠ "" → parse s = some t → formatDate parse fmt (some s) = fmt t) := by
  refine ⟨rfl, ?_, ?_⟩
  · intro s hs hp
    simp only [formatDate, if_neg hs, hp]
  · intro s t hs hp
    simp only [formatDate, if_neg hs, hp]

/-- C8 witness: concrete parser/formatter evaluating the three sample
inputs. -/
theorem formatDate_spec_witness :
    formatDate parseW fmtW none = "" ∧
    formatDate parseW fmtW (some "not-a-date") = "Invalid Date" ∧
    formatDate parseW fmtW (some "2024-09-19T10:02:09.615Z") = "19/09/2024" :=
  ⟨(formatDate_spec parseW fmtW).1,
   (formatDate_spec parseW fmtW).2.1 "not-a-date" (by decide) rfl,
   ((formatDate_spec parseW fmtW).2.2 "2024-09-19T10:02:09.615Z" 1726740129615
      (by decide) rfl).trans rfl⟩

/-! Identifier validation and the questionnaire lookup's lack of retry. -/

/-- C9: an empty `userTaskId` makes `getTaskDetails` fail with the
invalid-input error for every endpoint behaviour and every retry budget (so
no request and no retry happens); `getTaskQuestionnaireSubmission` fails the
same way on an empty `userTaskId` or an empty `jobId`; with valid
identifiers, a failure of its single request propagates unchanged, and its
result only depends on attempt 0 of the endpoint — it never retries. -/
theorem lookup_validation_no_retry :
    (∀ (fetch : Nat → Except ApiError TaskDetails) (retries attempt : Nat),
        getTaskDetails fetch "" retries attempt =
          Except.error (ApiError.invalidInput "userTaskId must be provided")) ∧
    (∀ (fetch : Nat → Except ApiError QResp) (jobId : String),
        getTaskQuestionnaireSubmission fetch jobId "" =
          Except.error (ApiError.invalidInput "userTaskId must be provided")) ∧
    (∀ (fetch : Nat → Except ApiError QResp) (userTaskId : String), userTaskId ≠ "" →
        getTaskQuestionnaireSubmission fetch "" userTaskId =
          Except.error (ApiError.invalidInput "jobId must be provided")) ∧
    (∀ (fetch : Nat → Except ApiError QResp) (jobId userTaskId : String) (e : ApiError),
        userTaskId ≠ "" → jobId ≠ "" → fetch 0 = Except.error e →
        getTaskQuestionnaireSubmission fetch jobId userTaskId = Except.error e) ∧
    (∀ (f g : Nat → Except ApiError QResp) (jobId userTaskId : String), f 0 = g 0 →
        getTaskQuestionnaireSubmission f jobId userTaskId =
          getTaskQuestionnaireSubmission g jobId userTaskId) := by
  refine ⟨?_, ?_, ?_, ?_, ?_⟩
  · intro fetch retries attempt
    rw [getTaskDetails, if_pos rfl]
  · intro fetch jobId
    rw [getTaskQuestionnaireSubmission, if_pos rfl]
  · intro fetch userTaskId hu
    rw [getTaskQuestionnaireSubmission, if_neg hu, if_pos rfl]
  · intro fetch jobId userTaskId e hu hj hf
    rw [getTaskQuestionnaireSubmission, if_neg hu, if_neg hj, hf]
  · intro f g jobId userTaskId hfg
    simp only [getTaskQuestionnaireSubmission]
    rw [hfg]

/-- C9 witness: the five conjuncts evaluated on concrete endpoints — in
particular `qErr2W`, which fails only on attempt 0, still makes the
questionnaire lookup fail, showing no second attempt is consulted. -/
theorem lookup_validation_no_retry_witness :
    getTaskDetails cAllFailW "" 10 0 =
      Except.error (ApiError.invalidInput "userTaskId must be provided") ∧
    getTaskQuestionnaireSubmission qErrW "j1" "" =
      Except.error (ApiError.invalidInput "userTaskId must be provided") ∧
    getTaskQuestionnaireSubmission qErrW "" "u1" =
      Except.error (ApiError.invalidInput "jobId must be provided") ∧
    getTaskQuestionnaireSubmission qErr2W "j1" "u1" =
      Except.error (ApiError.reqFailed 500 "Internal Server Error") ∧
    getTaskQuestionnaireSubmission qErrW "j1" "u1" =
      getTaskQuestionnaireSubmission qErr2W "j1" "u1" :=
  ⟨lookup_validation_no_retry.1 cAllFailW 10 0,
   lookup_validation_no_retry.2.1 qErrW "j1",
   lookup_validation_no_retry.2.2.1 qErrW "u1" (by decide),
   lookup_validation_no_retry.2.2.2.1 qErr2W "j1" "u1"
     (ApiError.reqFailed 500 "Internal Server Error") (by decide) (by decide) rfl,
   lookup_validation_no_retry.2.2.2.2 qErrW qErr2W "j1" "u1" rfl⟩

/-! The getTaskItems retry path. -/

/-- C10: when `getTaskItems`'s own first request fails, the retry path calls
`getTaskDetails`, so the successful retry result comes from the
`/tasks/user-task-items` endpoint: with the details endpoint succeeding on
its first attempt, the call returns the details endpoint's data — and the
result is the same for every other behaviour of getTaskItems's own
`/tasks/task-items` endpoint beyond attempt 0. -/
theorem getTaskItems_retries_via_details
    (itemsFetch detailsFetch : Nat → Except ApiError TaskDetails)
    (userTaskId : String) (e : ApiError) (d : TaskDetails)
    (hid : userTaskId ≠ "") (hfail : itemsFetch 0 = Except.error e)
    (hok : detailsFetch 0 = Except.ok d) :
    getTaskItems itemsFetch detailsFetch userTaskId 10 0 = Except.ok d ∧
    ∀ itemsFetch2 : Nat → Except ApiError TaskDetails,
      itemsFetch2 0 = Except.error e →
      getTaskItems itemsFetch2 detailsFetch userTaskId 10 0 = Except.ok d := by
  have key : ∀ itf : Nat → Except ApiError TaskDetails, itf 0 = Except.error e →
      getTaskItems itf detailsFetch userTaskId 10 0 = Except.ok d := by
    intro itf hitf
    rw [getTaskItems, if_neg hid, hitf]
    show getTaskDetails detailsFetch userTaskId 9 0 = Except.ok d
    rw [getTaskDetails, if_neg hid, hok]
  exact ⟨key itemsFetch hfail, key⟩

/-- C10 witness: the always-failing task-items endpoint together with the
always-succeeding details endpoint returns the details data. -/
theorem getTaskItems_retries_via_details_witness :
    getTaskItems cAllFailW detOkW "u1" 10 0 = Except.ok detailsW ∧
    ∀ itemsFetch2 : Nat → Except ApiError TaskDetails,
      itemsFetch2 0 = Except.error (ApiError.reqFailed 504 "Gateway Timeout") →
      getTaskItems itemsFetch2 detOkW "u1" 10 0 = Except.ok detailsW :=
  getTaskItems_retries_via_details cAllFailW detOkW "u1"
    (ApiError.reqFailed 504 "Gateway Timeout") detailsW (by decide) rfl rfl

end OhMyMinds
